import Mathlib

/-!
Verification of the rm68120 parallel-bus TFT display driver against its
design specification.  The source (src/src/lib.rs) is embedded shallowly:
the `Command` catalog and `Orientation` are enumerations, the driver's
bus traffic is modelled as an explicit transaction log, and the abstract
`WriteOnlyDataCommand` transport is a function from a transaction to a
fallible result.  Operations that the spec describes but that are absent
from the source (the address-window state machine) are modelled from the
spec and marked as such.
-/

namespace RM68120

-- ---------------------------------------------------------------------------
-- Orientation (src/src/lib.rs lines 14-36)

/-- Embeds the `Orientation` enum: four fixed variants. -/
inductive Orientation
  | Landscape
  | LandscapeFlipped
  | Portrait
  | PortraitFlipped
deriving DecidableEq, Repr

/-- Embeds `Orientation::is_landscape`: `Landscape | LandscapeFlipped => true`, otherwise false. -/
def Orientation.is_landscape : Orientation → Bool
  | .Landscape | .LandscapeFlipped => true
  | _ => false

/-- Embeds `Orientation::is_portrait`: `Portrait | PortraitFlipped => true`, otherwise false. -/
def Orientation.is_portrait : Orientation → Bool
  | .Portrait | .PortraitFlipped => true
  | _ => false

-- ---------------------------------------------------------------------------
-- Command catalog (src/src/lib.rs lines 41-121)

/-- Embeds the `Command` enum: the closed catalog of controller operation codes. -/
inductive Command
  | Nop
  | SoftReset
  | GetDisplayId
  | GetDsiErr
  | GetPowerMode
  | GetAddressMode
  | GetPixelFormat
  | GetDisplayMode
  | GetSignalMode
  | GetDiagnosticResult
  | EnterSleepMode
  | ExitSleepMode
  | EnterPartialMode
  | EnterNormalMode
  | ExitInvertMode
  | EnterInvertMode
  | SetAllPixelOff
  | SetAllPixelOn
  | GammaCurveSelect
  | SetDisplayOff
  | SetDisplayOn
  | SetColumnAddress
  | SetPageAddress
  | WriteMemoryStart
  | ReadMemoryStart
  | SetPartialArea
  | SetScrollArea
  | SetTearOff
  | SetTearOn
  | SetAddressMode
  | ExitIdleMode
  | EnterIdleMode
  | SetPixelFormat
  | WriteMemoryContinue
  | ReadMemoryContinue
  | SetTearScanline
  | GetScanline
  | SetDeepStandbyMode
  | SetProfileValueForDisplay
  | SetDisplayBrightness
  | GetDisplayBrightness
  | SetControlDisplay
  | GetControlDisplay
  | SetCabcMode
  | GetCabcMode
  | SetHysteresis
  | SetGammaSetting
  | GetFsValueMsbs
  | GetFsValueLsbs
  | GetMedianFilterFsValueMsbs
  | GetMedianFilterFsValueLsbs
  | SetCabcMinBrightness
  | GetCabcMinBrightness
  | SetLightSensorCoefficient
  | GetLsccMsbs
  | GetLsccLsbs
  | GetBlackWhiteLowBit
  | GetBkx
  | GetBky
  | GetWx
  | GetWy
  | GetRedGreenLowBit
  | GetRx
  | GetRy
  | GetGx
  | GetGy
  | GetBlueAcolorLowBit
  | GetBx
  | GetBy
  | GetAx
  | GetAy
  | ReadDdbStart
  | ReadDdbContinue
  | ReadFirstChecksum
  | ReadContinueChecksum
  | ReadId1
  | ReadId2
  | ReadId3
deriving DecidableEq, Repr

/-- Embeds the explicit discriminant of each `Command` variant (the value of
`command as u16` in the source). -/
def Command.code : Command → Nat
  | .Nop => 0x0000
  | .SoftReset => 0x0100
  | .GetDisplayId => 0x0400
  | .GetDsiErr => 0x0500
  | .GetPowerMode => 0x0A00
  | .GetAddressMode => 0x0B00
  | .GetPixelFormat => 0x0C00
  | .GetDisplayMode => 0x0D00
  | .GetSignalMode => 0x0E00
  | .GetDiagnosticResult => 0x0F00
  | .EnterSleepMode => 0x1000
  | .ExitSleepMode => 0x1100
  | .EnterPartialMode => 0x1200
  | .EnterNormalMode => 0x1300
  | .ExitInvertMode => 0x2000
  | .EnterInvertMode => 0x2100
  | .SetAllPixelOff => 0x2200
  | .SetAllPixelOn => 0x2300
  | .GammaCurveSelect => 0x2600
  | .SetDisplayOff => 0x2800
  | .SetDisplayOn => 0x2900
  | .SetColumnAddress => 0x2A00
  | .SetPageAddress => 0x2B00
  | .WriteMemoryStart => 0x2C00
  | .ReadMemoryStart => 0x2E00
  | .SetPartialArea => 0x3000
  | .SetScrollArea => 0x3300
  | .SetTearOff => 0x3400
  | .SetTearOn => 0x3500
  | .SetAddressMode => 0x3600
  | .ExitIdleMode => 0x3800
  | .EnterIdleMode => 0x3900
  | .SetPixelFormat => 0x3A00
  | .WriteMemoryContinue => 0x3C00
  | .ReadMemoryContinue => 0x3E00
  | .SetTearScanline => 0x4400
  | .GetScanline => 0x4500
  | .SetDeepStandbyMode => 0x4F00
  | .SetProfileValueForDisplay => 0x5000
  | .SetDisplayBrightness => 0x5100
  | .GetDisplayBrightness => 0x5200
  | .SetControlDisplay => 0x5300
  | .GetControlDisplay => 0x5400
  | .SetCabcMode => 0x5500
  | .GetCabcMode => 0x5600
  | .SetHysteresis => 0x5700
  | .SetGammaSetting => 0x5800
  | .GetFsValueMsbs => 0x5A00
  | .GetFsValueLsbs => 0x5B00
  | .GetMedianFilterFsValueMsbs => 0x5C00
  | .GetMedianFilterFsValueLsbs => 0x5D00
  | .SetCabcMinBrightness => 0x5E00
  | .GetCabcMinBrightness => 0x5F00
  | .SetLightSensorCoefficient => 0x6500
  | .GetLsccMsbs => 0x6600
  | .GetLsccLsbs => 0x6700
  | .GetBlackWhiteLowBit => 0x7000
  | .GetBkx => 0x7100
  | .GetBky => 0x7200
  | .GetWx => 0x7300
  | .GetWy => 0x7400
  | .GetRedGreenLowBit => 0x7500
  | .GetRx => 0x7600
  | .GetRy => 0x7700
  | .GetGx => 0x7800
  | .GetGy => 0x7900
  | .GetBlueAcolorLowBit => 0x7A00
  | .GetBx => 0x7B00
  | .GetBy => 0x7C00
  | .GetAx => 0x7D00
  | .GetAy => 0x7E00
  | .ReadDdbStart => 0xA100
  | .ReadDdbContinue => 0xA800
  | .ReadFirstChecksum => 0xAA00
  | .ReadContinueChecksum => 0xAF00
  | .ReadId1 => 0xDA00
  | .ReadId2 => 0xDB00
  | .ReadId3 => 0xDC00

-- ---------------------------------------------------------------------------
-- Transport model
--
-- The abstract `WriteOnlyDataCommand` interface has two primitives,
-- `send_commands` and `send_data`; a transaction records which primitive was
-- invoked (the command/data select line is managed by the transport based on
-- that choice, never by the driver) and the 16-bit words it carried
-- (`DataFormat::U16BEIter`, the transport serialises each word big-endian).

/-- Models a single bus transaction: which transport primitive was invoked and
the 16-bit words it carried. -/
inductive Transaction
  | Cmd (words : List Nat)
  | Data (words : List Nat)
deriving DecidableEq, Repr

/-- Discriminates the transport primitive a transaction used: `true` for
`send_commands`, `false` for `send_data`. -/
def Transaction.isCmd : Transaction → Bool
  | .Cmd _ => true
  | .Data _ => false

/-- Models `display_interface::DisplayError`, the error type of the abstract
transport (external dependency; representative constructors). -/
inductive DisplayError
  | InvalidFormatError
  | BusWriteError
  | DCError
  | CSError
  | DataFormatNotImplemented
deriving DecidableEq, Repr

/-- Models a `WriteOnlyDataCommand` transport behaviour: each attempted
transaction either succeeds or fails with a `DisplayError`. -/
abbrev Transport := Transaction → Except DisplayError Unit

-- ---------------------------------------------------------------------------
-- Driver (src/src/lib.rs lines 136-210)
--
-- Effectful driver methods are embedded writer-style: they return the Rust
-- result, the driver state after the call, and the ordered list of
-- transactions attempted on the transport during the call.

/-- Embeds the `Rm68120<I, D>` driver struct's tracked state (`interface` and
`delay` are the abstract capabilities, modelled separately as `Transport`). -/
structure Rm68120 where
  width : Nat
  height : Nat
  orientation : Orientation
deriving DecidableEq, Repr

/-- Embeds `Rm68120::new`: pure value construction.  The constructor body
performs no interface call, so its transaction log is empty.  The public
accessors `width()`, `height()` and `orientation()` are the field
projections (their bodies are `self.width` etc., with no bus traffic). -/
def Rm68120.new (w h : Nat) (o : Orientation) : Rm68120 × List Transaction :=
  ({ width := w, height := h, orientation := o }, [])

/-- Embeds the private `Rm68120::command`: sends the command's 16-bit code as
one `send_commands` transaction (`U16BEIter(once(code))`), propagating a
transport failure via `?` and otherwise returning `Ok(())`. -/
def Rm68120.command (d : Rm68120) (t : Transport) (c : Command) :
    Except DisplayError Unit × Rm68120 × List Transaction :=
  match t (Transaction.Cmd [c.code]) with
  | Except.ok _ => (Except.ok (), d, [Transaction.Cmd [c.code]])
  | Except.error e => (Except.error e, d, [Transaction.Cmd [c.code]])

/-- Embeds `Rm68120::enable`: `self.command(Command::SetDisplayOn)`. -/
def Rm68120.enable (d : Rm68120) (t : Transport) :
    Except DisplayError Unit × Rm68120 × List Transaction :=
  d.command t Command.SetDisplayOn

/-- Embeds `Rm68120::disable`: `self.command(Command::SetDisplayOff)`. -/
def Rm68120.disable (d : Rm68120) (t : Transport) :
    Except DisplayError Unit × Rm68120 × List Transaction :=
  d.command t Command.SetDisplayOff

/-- Embeds the private `Rm68120::write_iter`: sends the pixel words as one
`send_data` transaction.  The source issues NO command transaction first
(its body carries the comment `FIXME: do I need to send a command first?`). -/
def Rm68120.write_iter (d : Rm68120) (t : Transport) (data : List Nat) :
    Except DisplayError Unit × Rm68120 × List Transaction :=
  match t (Transaction.Data data) with
  | Except.ok _ => (Except.ok (), d, [Transaction.Data data])
  | Except.error e => (Except.error e, d, [Transaction.Data data])

/-- A transport that accepts every transaction; used to evaluate the driver on
concrete inputs. -/
def okTransport : Transport := fun _ => Except.ok ()

-- ---------------------------------------------------------------------------
-- Builder (src/src/lib.rs lines 215-257)

/-- Embeds the `Rm68120Builder` struct. -/
structure Rm68120Builder where
  width : Nat
  height : Nat
  orientation : Orientation
deriving DecidableEq, Repr

/-- Embeds `Rm68120Builder::new`: defaults `DEFAULT_WIDTH = 800`,
`DEFAULT_HEIGHT = 480`, `Orientation::Landscape`. -/
def Rm68120Builder.new : Rm68120Builder :=
  { width := 800, height := 480, orientation := Orientation.Landscape }

/-- Embeds `Rm68120Builder::with_dimensions`. -/
def Rm68120Builder.with_dimensions (b : Rm68120Builder) (w h : Nat) : Rm68120Builder :=
  { b with width := w, height := h }

/-- Embeds `Rm68120Builder::with_orientation`. -/
def Rm68120Builder.with_orientation (b : Rm68120Builder) (o : Orientation) : Rm68120Builder :=
  { b with orientation := o }

/-- Embeds `Rm68120Builder::build`: delegates to `Rm68120::new` with the
builder's fields; returns the driver value (no bus traffic). -/
def Rm68120Builder.build (b : Rm68120Builder) : Rm68120 :=
  (Rm68120.new b.width b.height b.orientation).1

-- ---------------------------------------------------------------------------
-- Display Session (spec §4.2) — code missing from src
--
-- The source is a stub: `set_window`, `set_orientation` and the public
-- `write_pixels` operation, together with the window-valid/window-stale
-- sub-state and the `InvalidGeometry`/`NoActiveWindow` error kinds, do not
-- exist in src/src/lib.rs.  They are modelled here from the spec.

/-- Modelled from the spec: the error kinds of §7 (`TransportError` carries
the bus-level failure; `InvalidGeometry` and `NoActiveWindow` are the
session-level validation failures missing from src). -/
inductive SessionError
  | TransportError (e : DisplayError)
  | InvalidGeometry
  | NoActiveWindow
deriving DecidableEq, Repr

/-- Modelled from the spec: the Ready state's window sub-state of §4.2 —
stale, or valid with the recorded bounds; `streamed` distinguishes a fresh
window (next `write_pixels` issues memory-write-start) from one already
streamed to (next call issues memory-write-continue). -/
inductive WindowState
  | stale
  | valid (cs ce rs re : Nat) (streamed : Bool)
deriving DecidableEq, Repr

/-- Modelled from the spec: the Display Session state of §3 — width, height,
orientation, and the last-applied address window (missing from src). -/
structure Session where
  width : Nat
  height : Nat
  orientation : Orientation
  window : WindowState
deriving DecidableEq, Repr

/-- Modelled from the spec: `construct` of §4.2 — pure value construction
with no bus traffic, starting in Ready/window-stale. -/
def Session.construct (w h : Nat) (o : Orientation) : Session × List Transaction :=
  ({ width := w, height := h, orientation := o, window := WindowState.stale }, [])

/-- Modelled from the spec: the address-mode parameter derived from the
orientation in §4.2 (row/column exchange for landscape, direction bits for
the flipped variants; exact bit values are not fixed by the spec). -/
def addressModeParam : Orientation → Nat
  | .Landscape => 0x20
  | .LandscapeFlipped => 0xE0
  | .Portrait => 0x00
  | .PortraitFlipped => 0xC0

/-- Modelled from the spec: `set_orientation` of §4.2 — issues the
address-mode command with the derived parameter and invalidates any
previously-latched window (missing from src). -/
def Session.set_orientation (s : Session) (o : Orientation) :
    Except SessionError Unit × Session × List Transaction :=
  (Except.ok (),
   { s with orientation := o, window := WindowState.stale },
   [Transaction.Cmd [Command.SetAddressMode.code],
    Transaction.Data [addressModeParam o]])

/-- Modelled from the spec: `set_window` of §4.2 — validates
`col_start <= col_end < width` and `row_start <= row_end < height`, failing
with `InvalidGeometry` and issuing no transaction on violation; on success
issues set-column-address with its (start, end) pair, then set-page-address
with its pair, and records the window as valid (missing from src). -/
def Session.set_window (s : Session) (cs ce rs re : Nat) :
    Except SessionError Unit × Session × List Transaction :=
  if cs ≤ ce ∧ ce < s.width ∧ rs ≤ re ∧ re < s.height then
    (Except.ok (),
     { s with window := WindowState.valid cs ce rs re false },
     [Transaction.Cmd [Command.SetColumnAddress.code],
      Transaction.Data [cs, ce],
      Transaction.Cmd [Command.SetPageAddress.code],
      Transaction.Data [rs, re]])
  else
    (Except.error SessionError.InvalidGeometry, s, [])

/-- Modelled from the spec: `write_pixels` of §4.2/§4.3 — requires a valid
window, else fails with `NoActiveWindow` issuing nothing; on the first call
against a fresh window issues memory-write-start then the pixel words as one
data transaction; on a repeat call against the same still-valid window
issues memory-write-continue instead (missing from src). -/
def Session.write_pixels (s : Session) (px : List Nat) :
    Except SessionError Unit × Session × List Transaction :=
  match s.window with
  | WindowState.stale => (Except.error SessionError.NoActiveWindow, s, [])
  | WindowState.valid cs ce rs re false =>
      (Except.ok (),
       { s with window := WindowState.valid cs ce rs re true },
       [Transaction.Cmd [Command.WriteMemoryStart.code], Transaction.Data px])
  | WindowState.valid _ _ _ _ true =>
      (Except.ok (), s,
       [Transaction.Cmd [Command.WriteMemoryContinue.code], Transaction.Data px])

-- ---------------------------------------------------------------------------
-- Helper lemmas

/-- Helper: `command` attempts exactly the single command transaction carrying
the operation's code, whatever the transport does. -/
theorem command_log (d : Rm68120) (t : Transport) (c : Command) :
    (d.command t c).2.2 = [Transaction.Cmd [c.code]] := by
  unfold Rm68120.command
  cases t (Transaction.Cmd [c.code]) <;> rfl

/-- Helper: `command` never modifies the driver's tracked state. -/
theorem command_state (d : Rm68120) (t : Transport) (c : Command) :
    (d.command t c).2.1 = d := by
  unfold Rm68120.command
  cases t (Transaction.Cmd [c.code]) <;> rfl

/-- Helper: `command` returns exactly the transport's outcome for its single
send attempt. -/
theorem command_result (d : Rm68120) (t : Transport) (c : Command) :
    (d.command t c).1 = t (Transaction.Cmd [c.code]) := by
  unfold Rm68120.command
  rcases h : t (Transaction.Cmd [c.code]) with a | e <;> simp [h]

/-- Helper: `write_iter` returns exactly the transport's outcome for its single
data-send attempt, and its log is that lone data transaction. -/
theorem write_iter_result (d : Rm68120) (t : Transport) (px : List Nat) :
    (d.write_iter t px).1 = t (Transaction.Data px) ∧
    (d.write_iter t px).2.2 = [Transaction.Data px] := by
  unfold Rm68120.write_iter
  rcases h : t (Transaction.Data px) with a | e <;> simp [h]

-- ---------------------------------------------------------------------------
-- Claim theorems

/-- Claim C1 (code evaluation): the source's pixel-streaming data path,
`write_iter`, emits the pixel words as a lone data transaction with NO
preceding memory-write-start/continue command transaction — on an
800×480 landscape driver with an always-succeeding transport and pixel words
`[0x1234]`, the complete transaction log is `[Data [0x1234]]` and contains no
command transaction at all. -/
theorem write_iter_emits_lone_data_transaction :
    Rm68120.write_iter
        { width := 800, height := 480, orientation := Orientation.Landscape }
        okTransport [0x1234]
      = (Except.ok (),
         { width := 800, height := 480, orientation := Orientation.Landscape },
         [Transaction.Data [0x1234]]) ∧
    ((Rm68120.write_iter
        { width := 800, height := 480, orientation := Orientation.Landscape }
        okTransport [0x1234]).2.2.all fun tx => !tx.isCmd) = true :=
  ⟨rfl, rfl⟩

/-- Claim C2: the Display Session's window sub-state machine — after
construction the window is stale and `write_pixels` fails with
`NoActiveWindow` issuing nothing; a successful `set_window` makes the window
valid with the given bounds recorded; a subsequent `set_orientation` returns
it to stale, after which `write_pixels` again fails with `NoActiveWindow`
and issues no pixel data. -/
theorem session_window_state_machine
    (w h : Nat) (o o2 : Orientation) (cs ce rs re : Nat) (px : List Nat)
    (h1 : cs ≤ ce) (h2 : ce < w) (h3 : rs ≤ re) (h4 : re < h) :
    ((Session.construct w h o).1.window = WindowState.stale) ∧
    (Session.write_pixels (Session.construct w h o).1 px
      = (Except.error SessionError.NoActiveWindow, (Session.construct w h o).1, [])) ∧
    ((Session.set_window (Session.construct w h o).1 cs ce rs re).1 = Except.ok ()) ∧
    ((Session.set_window (Session.construct w h o).1 cs ce rs re).2.1.window
      = WindowState.valid cs ce rs re false) ∧
    ((Session.set_orientation
        (Session.set_window (Session.construct w h o).1 cs ce rs re).2.1 o2).2.1.window
      = WindowState.stale) ∧
    (Session.write_pixels
        (Session.set_orientation
          (Session.set_window (Session.construct w h o).1 cs ce rs re).2.1 o2).2.1 px
      = (Except.error SessionError.NoActiveWindow,
         (Session.set_orientation
           (Session.set_window (Session.construct w h o).1 cs ce rs re).2.1 o2).2.1,
         [])) := by
  have hc : cs ≤ ce ∧ ce < (Session.construct w h o).1.width ∧
      rs ≤ re ∧ re < (Session.construct w h o).1.height := ⟨h1, h2, h3, h4⟩
  refine ⟨rfl, rfl, ?_, ?_, rfl, rfl⟩ <;>
    · unfold Session.set_window
      rw [if_pos hc]

/-- Witness for C2 at width 800, height 480, Landscape, new orientation
Portrait, window (0, 99, 0, 49), pixels [1, 2]. -/
theorem session_window_state_machine_witness :
    ((Session.construct 800 480 Orientation.Landscape).1.window = WindowState.stale) ∧
    (Session.write_pixels (Session.construct 800 480 Orientation.Landscape).1 [1, 2]
      = (Except.error SessionError.NoActiveWindow,
         (Session.construct 800 480 Orientation.Landscape).1, [])) ∧
    ((Session.set_window (Session.construct 800 480 Orientation.Landscape).1 0 99 0 49).1
      = Except.ok ()) ∧
    ((Session.set_window (Session.construct 800 480 Orientation.Landscape).1 0 99 0 49).2.1.window
      = WindowState.valid 0 99 0 49 false) ∧
    ((Session.set_orientation
        (Session.set_window (Session.construct 800 480 Orientation.Landscape).1 0 99 0 49).2.1
        Orientation.Portrait).2.1.window
      = WindowState.stale) ∧
    (Session.write_pixels
        (Session.set_orientation
          (Session.set_window (Session.construct 800 480 Orientation.Landscape).1 0 99 0 49).2.1
          Orientation.Portrait).2.1 [1, 2]
      = (Except.error SessionError.NoActiveWindow,
         (Session.set_orientation
           (Session.set_window (Session.construct 800 480 Orientation.Landscape).1 0 99 0 49).2.1
           Orientation.Portrait).2.1,
         [])) :=
  session_window_state_machine 800 480 Orientation.Landscape Orientation.Portrait
    0 99 0 49 [1, 2] (by decide) (by decide) (by decide) (by decide)

/-- Claim C3: `set_window` on an invalid tuple (start above end on either
axis, or an end reaching the width/height) fails with `InvalidGeometry` and
issues zero transactions; on a valid tuple it succeeds, records the window,
and issues the set-column-address command (0x2A00) with its (start, end)
pair before the set-page-address command (0x2B00) with its pair. -/
theorem set_window_validation_and_order (s : Session) (cs ce rs re : Nat) :
    (¬(cs ≤ ce ∧ ce < s.width ∧ rs ≤ re ∧ re < s.height) →
        Session.set_window s cs ce rs re
          = (Except.error SessionError.InvalidGeometry, s, [])) ∧
    ((cs ≤ ce ∧ ce < s.width ∧ rs ≤ re ∧ re < s.height) →
        Session.set_window s cs ce rs re
          = (Except.ok (),
             { s with window := WindowState.valid cs ce rs re false },
             [Transaction.Cmd [0x2A00], Transaction.Data [cs, ce],
              Transaction.Cmd [0x2B00], Transaction.Data [rs, re]])) := by
  constructor
  · intro hn
    unfold Session.set_window
    rw [if_neg hn]
  · intro hp
    unfold Session.set_window
    rw [if_pos hp]
    rfl

/-- Witness for C3 on an 800×480 stale session: the inverted tuple
(5, 2, 0, 0) is rejected with no transactions; the valid tuple (0, 99, 0, 49)
succeeds with the column-then-page transaction sequence. -/
theorem set_window_validation_and_order_witness :
    (Session.set_window
        { width := 800, height := 480, orientation := Orientation.Landscape,
          window := WindowState.stale } 5 2 0 0
      = (Except.error SessionError.InvalidGeometry,
         { width := 800, height := 480, orientation := Orientation.Landscape,
           window := WindowState.stale }, [])) ∧
    (Session.set_window
        { width := 800, height := 480, orientation := Orientation.Landscape,
          window := WindowState.stale } 0 99 0 49
      = (Except.ok (),
         { width := 800, height := 480, orientation := Orientation.Landscape,
           window := WindowState.valid 0 99 0 49 false },
         [Transaction.Cmd [0x2A00], Transaction.Data [0, 99],
          Transaction.Cmd [0x2B00], Transaction.Data [0, 49]])) :=
  ⟨(set_window_validation_and_order
      { width := 800, height := 480, orientation := Orientation.Landscape,
        window := WindowState.stale } 5 2 0 0).1 (by decide),
   (set_window_validation_and_order
      { width := 800, height := 480, orientation := Orientation.Landscape,
        window := WindowState.stale } 0 99 0 49).2 (by decide)⟩

/-- Claim C4: `enable` issues exactly one command transaction carrying exactly
the display-on code 0x2900 and `disable` exactly one carrying the display-off
code 0x2800, with no data transaction, for every driver state and transport
behaviour (the transaction kind records that only the command-send primitive
was selected). -/
theorem enable_disable_single_command :
    ∀ (d : Rm68120) (t : Transport),
      (d.enable t).2.2 = [Transaction.Cmd [0x2900]] ∧
      (d.disable t).2.2 = [Transaction.Cmd [0x2800]] ∧
      ((d.enable t).2.2.all fun tx => tx.isCmd) = true ∧
      ((d.disable t).2.2.all fun tx => tx.isCmd) = true := by
  intro d t
  have he := command_log d t Command.SetDisplayOn
  have hd := command_log d t Command.SetDisplayOff
  exact ⟨he, hd, by rw [Rm68120.enable, he]; rfl, by rw [Rm68120.disable, hd]; rfl⟩

/-- Claim C5: the operation-code encoding is a total pure function on the
closed catalog — every entry has a defined 16-bit code — and the cited
entries have their fixed values. -/
theorem command_code_total_and_fixed :
    (∀ c : Command, Command.code c < 65536) ∧
    Command.code Command.SetColumnAddress = 0x2A00 ∧
    Command.code Command.SetPageAddress = 0x2B00 ∧
    Command.code Command.WriteMemoryStart = 0x2C00 ∧
    Command.code Command.WriteMemoryContinue = 0x3C00 ∧
    Command.code Command.SetDisplayOn = 0x2900 ∧
    Command.code Command.SetDisplayOff = 0x2800 := by
  refine ⟨fun c => ?_, rfl, rfl, rfl, rfl, rfl, rfl⟩
  cases c <;> decide

/-- Claim C6: `is_landscape` and `is_portrait` partition the four orientation
variants — never both true, and every variant is one or the other. -/
theorem orientation_partition :
    ∀ o : Orientation,
      (o.is_landscape && o.is_portrait) = false ∧
      (o.is_landscape || o.is_portrait) = true := by
  intro o
  cases o <;> exact ⟨rfl, rfl⟩

/-- Claim C7: construction round-trip — for every width, height and
orientation, constructing the driver records exactly those values, retrieved
unchanged by the accessors, and construction issues zero transactions. -/
theorem construct_round_trip :
    ∀ (w h : Nat) (o : Orientation),
      (Rm68120.new w h o).1.width = w ∧
      (Rm68120.new w h o).1.height = h ∧
      (Rm68120.new w h o).1.orientation = o ∧
      (Rm68120.new w h o).2 = [] := by
  intro w h o
  exact ⟨rfl, rfl, rfl, rfl⟩

/-- Claim C8: each fallible operation makes exactly one send attempt and
returns exactly the transport's outcome for it — the error is propagated
unchanged when the send fails, success is returned otherwise, with no retry
and no swallowed error. -/
theorem transport_error_propagation :
    ∀ (d : Rm68120) (t : Transport) (px : List Nat),
      (d.enable t).1 = t (Transaction.Cmd [0x2900]) ∧
      (d.disable t).1 = t (Transaction.Cmd [0x2800]) ∧
      (d.write_iter t px).1 = t (Transaction.Data px) ∧
      (d.enable t).2.2.length = 1 ∧
      (d.disable t).2.2.length = 1 ∧
      (d.write_iter t px).2.2.length = 1 := by
  intro d t px
  refine ⟨command_result d t Command.SetDisplayOn,
          command_result d t Command.SetDisplayOff,
          (write_iter_result d t px).1, ?_, ?_, ?_⟩
  · rw [Rm68120.enable, command_log]
    rfl
  · rw [Rm68120.disable, command_log]
    rfl
  · rw [(write_iter_result d t px).2]
    rfl

/-- Claim C9: a freshly created builder defaults to width 800, height 480 and
landscape orientation, and the defaults can be overridden before
construction. -/
theorem builder_defaults_and_override :
    (Rm68120Builder.new.build.width = 800 ∧
     Rm68120Builder.new.build.height = 480 ∧
     Rm68120Builder.new.build.orientation = Orientation.Landscape) ∧
    ∀ (w h : Nat) (o : Orientation),
      ((Rm68120Builder.new.with_dimensions w h).with_orientation o).build.width = w ∧
      ((Rm68120Builder.new.with_dimensions w h).with_orientation o).build.height = h ∧
      ((Rm68120Builder.new.with_dimensions w h).with_orientation o).build.orientation = o :=
  ⟨⟨rfl, rfl, rfl⟩, fun _ _ _ => ⟨rfl, rfl, rfl⟩⟩

/-- Claim C10: `enable` and `disable` leave the driver's tracked state
(width, height, orientation) unchanged for every driver state and every
transport behaviour, succeeding or failing. -/
theorem enable_disable_preserve_state :
    ∀ (d : Rm68120) (t : Transport),
      (d.enable t).2.1 = d ∧ (d.disable t).2.1 = d := by
  intro d t
  exact ⟨command_state d t Command.SetDisplayOn, command_state d t Command.SetDisplayOff⟩

end RM68120
